import Mathlib

/-!
Shallow embedding of the authorization and prescription-workflow core of the
PrescriptionManagementApi repository (src/app), together with proofs about it.

Conventions of the embedding:
* machine state held in the SQL database is modelled as explicit Lean data
  (lists of rows) passed in and out of each operation;
* external collaborators (the jose JWT library, the passlib hash verifier, the
  metomi ISO8601 recurrence parser, the Python `random` module) are modelled as
  function parameters, so every theorem quantifies over their behaviour;
* Python `None` becomes `Option.none`; a raised `HTTPException` with a distinct
  `detail` becomes a distinct constructor of a result type; an exception that
  the source does not catch becomes its own constructor as well;
* timestamps (`datetime.now()`) are natural numbers supplied by the caller or
  by a monotone clock in the workflow state machine.
-/

/-! ## Users and authentication (src/app/auth.py, src/app/main.py) -/

/-- Row of the `users` table (`models/auth.py`: `User`), as selected by
`get_user_by_username`. `institution_id` is nullable. -/
structure UserRow where
  username : String
  password : String
  email : String
  name : String
  institution_id : Option String
deriving DecidableEq, Repr

/-- `user_queries.get_user_by_username`: point lookup of a user row by
username (`SELECT ... FROM users WHERE username = %s`, then `fetchone`). -/
def get_user_by_username (users : List UserRow) (username : String) : Option UserRow :=
  users.find? (fun u => u.username == username)

/-- `auth.verify_password`: delegates to `PWD_CONTEXT.verify`; an
`UnknownHashError` (modelled as `none` from the verifier) is caught and turned
into `false`. -/
def verify_password (pwdVerify : String → String → Option Bool)
    (plain_password : String) (hashed_password : String) : Bool :=
  match pwdVerify plain_password hashed_password with
  | none => false
  | some b => b

/-- `auth.authenticate_user`: `none` when the username is not found, otherwise
the user row exactly when the password verifies against the stored hash. -/
def authenticate_user (pwdVerify : String → String → Option Bool)
    (users : List UserRow) (username : String) (password : String) : Option UserRow :=
  match get_user_by_username users username with
  | none => none
  | some user =>
    if verify_password pwdVerify password user.password then some user else none

/-- Externally visible outcome of the `/token` login endpoint. -/
inductive LoginResult where
  | unauthorized
  | token (t : String)
deriving DecidableEq, Repr

/-- `main.login`: raises 401 `Unauthorized.` when `authenticate_user` returns
`None`, otherwise issues a token for the authenticated username. -/
def login (pwdVerify : String → String → Option Bool)
    (create_token : String → String) (users : List UserRow)
    (username : String) (password : String) : LoginResult :=
  match authenticate_user pwdVerify users username password with
  | none => .unauthorized
  | some user => .token (create_token user.username)

/-- Externally visible outcome of `auth.get_current_user`.
`unauthenticated` is the single 401 `credentials_exception`; `typeError` is
the uncaught `TypeError` raised by `User(**None)` when the subject of a valid
token no longer exists (surfaced by the framework as a 500 response). -/
inductive AuthOutcome where
  | unauthenticated
  | typeError
  | ok (u : UserRow)
deriving DecidableEq, Repr

/-- `auth.get_current_user`. `decodeToken` models `jwt.decode` followed by
`payload.get("uid")`: `none` is a `JWTError` (malformed, bad signature or
expired token), `some none` is a structurally valid payload missing the `uid`
claim, `some (some u)` is a verified token with subject `u`. The source then
evaluates `User(**next(get_user_by_username(username)))`; when the lookup
fetches no row, `next` yields `None` and `User(**None)` raises a `TypeError`
that no handler catches. -/
def get_current_user (decodeToken : String → Option (Option String))
    (users : List UserRow) (token : Option String) : AuthOutcome :=
  match token with
  | none => .unauthenticated
  | some t =>
    match decodeToken t with
    | none => .unauthenticated
    | some none => .unauthenticated
    | some (some username) =>
      match get_user_by_username users username with
      | some row => .ok row
      | none => .typeError

/-! ## Permission checking (src/app/permissions.py, src/app/auth.py) -/

/-- Outcome of an authorization check on an already-authenticated user:
either the user is returned, or the 403 `NOT_ALLOWED_EXCEPTION` is raised. -/
inductive AuthzResult where
  | ok (username : String)
  | forbidden
deriving DecidableEq, Repr

/-- Truthiness of a Python `str`: only the empty string is falsy. -/
def pyTruthyString (s : String) : Bool := s != ""

/-- `auth.check_user_by_permissions`. `get_user_permissions` models the SQL
join resolving the effective permission names of a username. The wildcard test
is a membership test, but `has_permission` is
`any(p for p in user_permissions if p in permissions)`, which tests the
*truthiness* of each matching permission name. -/
def check_user_by_permissions (get_user_permissions : String → List String)
    (permissions : List String) (user : String) : AuthzResult :=
  let user_permissions := get_user_permissions user
  if "*" ∈ user_permissions then .ok user
  else
    let has_permission :=
      (user_permissions.filter (fun p => decide (p ∈ permissions))).any pyTruthyString
    if has_permission then .ok user else .forbidden

/-- `permissions.PermissionsChecker`: holds the required permission names. -/
structure PermissionsChecker where
  permissions : List String

/-- `PermissionsChecker.__call__` for an already-authenticated user: an empty
required list short-circuits to success, otherwise defers to
`check_user_by_permissions`. -/
def PermissionsChecker.call (self : PermissionsChecker)
    (get_user_permissions : String → List String) (user : String) : AuthzResult :=
  if self.permissions.length < 1 then .ok user
  else check_user_by_permissions get_user_permissions self.permissions user

/-! ## Prescriptions data (src/app/models/prescriptions.py, database rows) -/

/-- Client-supplied part of a prescription (`models.prescriptions.BasePrescription`). -/
structure BasePrescription where
  medication_id : String
  time_statement : String
deriving DecidableEq, Repr

/-- Row of `repeat_prescriptions` (`models.prescriptions.Prescription` plus the
`created_by_institution_id` column). `institution_id` is the filling pharmacy
institution; nullable timestamps are `Option Nat`. -/
structure Prescription where
  prescription_id : String
  medication_id : String
  time_statement : String
  institution_id : String
  created_by_institution_id : Option String
  username : String
  approved_at : Option Nat
  issued_at : Option Nat
  issued_by : Option String
  short_code : Nat
deriving DecidableEq, Repr

/-- Row of `blood_requests` as inserted by
`bloodwork_queries.create_bloodwork_request`. -/
structure BloodworkRequest where
  request_id : String
  request_type : Nat
  prescription_id : String
  practice_id : String
  completed_at : Option Nat
deriving DecidableEq, Repr

/-- Row of `medications` (`models.medication.Medication`);
`bloodwork_requirement` is the nullable `MedicationBloodworkTypes` value. -/
structure MedicationRec where
  medication_id : String
  medication_name : String
  bloodwork_requirement : Option Nat
deriving DecidableEq, Repr

/-- Python `random` as used by `prescriptions_queries.create_prescription`:
`seed` maps a seed value to a generator state, `randint` draws an integer in
`[lo, hi]` from a state and returns the advanced state. -/
structure PyRandom where
  seed : Nat → Nat
  randint : Nat → Nat → Nat → Nat × Nat

/-- `prescriptions_queries.create_prescription`: calls `seed(1)`, draws
`randint(00000000, 99999999)` as the short code, and inserts the row with the
approval and issue columns left at their NULL defaults. `rng0` is the state of
the global generator before the call; `seed(1)` discards it. `new_uuid` models
the freshly drawn `uuid.uuid4()`. -/
def create_prescription (R : PyRandom) (rng0 : Nat) (new_uuid : String)
    (prescription : BasePrescription) (institution_id : String)
    (username : String) (created_by_institution_id : Option String) : Prescription :=
  let st := R.seed 1
  let short_code := (R.randint st 0 99999999).1
  { prescription_id := new_uuid
    medication_id := prescription.medication_id
    time_statement := prescription.time_statement
    institution_id := institution_id
    created_by_institution_id := created_by_institution_id
    username := username
    approved_at := none
    issued_at := none
    issued_by := none
    short_code := short_code }

/-- `prescriptions_queries.get_bloodwork_request_for_prescription`: the FULL
JOIN of the (existing) prescription row against `blood_requests` yields the
pair (`request_id`, `completed_at`), both NULL when no request row joins. -/
def get_bloodwork_request_for_prescription (requests : List BloodworkRequest)
    (prescription_id : String) : Option String × Option Nat :=
  match requests.find? (fun r => r.prescription_id == prescription_id) with
  | some r => (some r.request_id, r.completed_at)
  | none => (none, none)

/-- `prescriptions_queries.mark_prescription_approved`: the UPDATE sets only
`approved_at`. -/
def mark_prescription_approved (now : Nat) (p : Prescription) : Prescription :=
  { p with approved_at := some now }

/-- `prescriptions_queries.mark_prescription_issued`: the single UPDATE sets
`issued_at` and `issued_by` together. -/
def mark_prescription_issued (now : Nat) (issuing_user : String)
    (p : Prescription) : Prescription :=
  { p with issued_at := some now, issued_by := some issuing_user }

/-- Outcome of the approve endpoint; the two declines carry the distinct
details `Prescription already approved.` and `Bloodwork incomplete.`. -/
inductive ApproveResult where
  | alreadyApproved
  | bloodworkIncomplete
  | approved (p : Prescription)
deriving DecidableEq, Repr

/-- `routers.prescriptions.mark_prescription_as_approved` on a resolved
prescription: reject if `approved_at` is already set; then reject if the
joined bloodwork row has `request_id` non-null and `completed_at` null;
otherwise stamp `approved_at = now`. -/
def mark_prescription_as_approved (now : Nat) (requests : List BloodworkRequest)
    (p : Prescription) : ApproveResult :=
  if p.approved_at.isSome then .alreadyApproved
  else
    let bw := get_bloodwork_request_for_prescription requests p.prescription_id
    if bw.1.isSome && bw.2.isNone then .bloodworkIncomplete
    else .approved (mark_prescription_approved now p)

/-- Outcome of the issue endpoint; the declines carry the distinct signals
403 `Wrong institution.`, 400 `Prescription already issued.` and
400 `Prescription not approved for issue.`. -/
inductive IssueResult where
  | wrongInstitution
  | alreadyIssued
  | notApproved
  | issued (p : Prescription)
deriving DecidableEq, Repr

/-- `routers.prescriptions.mark_prescription_as_issued` on a resolved
prescription: first the institution comparison
(`prescription.institution_id != issuing_user.institution_id`, where the
issuing user's institution may be null), then the already-issued test on
`issued_at` or `issued_by`, then the approval test; on success both issue
fields are stamped. -/
def mark_prescription_as_issued (now : Nat) (p : Prescription)
    (issuing_user_institution : Option String) (issuing_username : String) : IssueResult :=
  if issuing_user_institution ≠ some p.institution_id then .wrongInstitution
  else if p.issued_at.isSome || p.issued_by.isSome then .alreadyIssued
  else if p.approved_at.isNone then .notApproved
  else .issued (mark_prescription_issued now issuing_username p)

/-! ## Prescription creation (src/app/routers/prescriptions.py) -/

/-- Reference data consulted by `create_user_repeat_prescription`:
`medical_practices` is the set of institution ids whose row has
`institution_type = MEDICAL_PRACTICE` (what `get_medical_practice` filters
on); `pharmacy_assignments` are (username, pharmacy institution) rows;
`parse_time_recurrence` models the external metomi `TimeRecurrenceParser`,
returning the normalized statement or `none` on `ISO8601SyntaxError`. -/
structure CreateContext where
  users : List UserRow
  medical_practices : List String
  pharmacy_assignments : List (String × String)
  medications : List MedicationRec
  parse_time_recurrence : String → Option String

/-- `medical_practice_queries.get_medical_practice`: point lookup restricted
to rows of the medical-practice institution type; a null id finds nothing. -/
def get_medical_practice (medical_practices : List String)
    (institution_id : Option String) : Option String :=
  match institution_id with
  | none => none
  | some i => if i ∈ medical_practices then some i else none

/-- `pharmacies_queries.get_users_pharmacy_assignment`: lookup of the
(username, institution) assignment row for a username. -/
def get_users_pharmacy_assignment (assignments : List (String × String))
    (username : String) : Option (String × String) :=
  assignments.find? (fun a => a.1 == username)

/-- `medication_queries.get_medication_by_id`: point lookup of a medication. -/
def get_medication_by_id (medications : List MedicationRec)
    (medication_id : String) : Option MedicationRec :=
  medications.find? (fun m => m.medication_id == medication_id)

/-- Outcome of the create endpoint; each decline carries its distinct 400
detail, in source order: `User not found.`, `Institution invalid.`,
`Pharmacy assignment not found.`, `User does not belong to medical practice.`,
`Medication invalid.`, `Time statement invalid.`. -/
inductive CreateResult where
  | userNotFound
  | institutionInvalid
  | pharmacyAssignmentNotFound
  | userNotInMedicalPractice
  | medicationInvalid
  | timeStatementInvalid
  | created (p : Prescription) (bloodwork : Option BloodworkRequest)
deriving DecidableEq, Repr

/-- `routers.prescriptions.create_user_repeat_prescription`: the six guards in
source order, then `create_prescription` against the pharmacy of the target
user's assignment, then a bloodwork request in the requesting practice exactly
when the medication carries a bloodwork requirement. The practice id stored on
the bloodwork request is `requesting_user.institution_id`, which at that point
is the id just found by `get_medical_practice`. -/
def create_user_repeat_prescription (ctx : CreateContext) (R : PyRandom) (rng0 : Nat)
    (new_prescription_id : String) (new_request_id : String)
    (username : String) (prescription : BasePrescription)
    (requesting_user_institution : Option String) : CreateResult :=
  match get_user_by_username ctx.users username with
  | none => .userNotFound
  | some user =>
    match get_medical_practice ctx.medical_practices requesting_user_institution with
    | none => .institutionInvalid
    | some requesting_practice_id =>
      match get_users_pharmacy_assignment ctx.pharmacy_assignments user.username with
      | none => .pharmacyAssignmentNotFound
      | some pharmacy_assignment =>
        if (get_medical_practice ctx.medical_practices user.institution_id).isNone then
          .userNotInMedicalPractice
        else
          match get_medication_by_id ctx.medications prescription.medication_id with
          | none => .medicationInvalid
          | some medication =>
            match ctx.parse_time_recurrence prescription.time_statement with
            | none => .timeStatementInvalid
            | some recurrance_string =>
              let p := create_prescription R rng0 new_prescription_id
                { prescription with time_statement := recurrance_string }
                pharmacy_assignment.2 user.username requesting_user_institution
              let bw : Option BloodworkRequest :=
                match medication.bloodwork_requirement with
                | some requirement =>
                  some { request_id := new_request_id
                         request_type := requirement
                         prescription_id := new_prescription_id
                         practice_id := requesting_practice_id
                         completed_at := none }
                | none => none
              .created p bw

/-! ## Workflow state machine (reachable states of the prescription store) -/

/-- The persistent store touched by the prescription workflow, plus a monotone
clock modelling `datetime.now()`: every recorded timestamp is a clock value,
and the clock never decreases between operations. -/
structure WorkflowState where
  prescriptions : List Prescription
  blood_requests : List BloodworkRequest
  clock : Nat
deriving Repr

/-- One API-level operation against the workflow, with the time elapsed since
the previous operation. -/
inductive WorkflowOp where
  | createOp (dt : Nat) (new_prescription_id new_request_id : String)
      (username : String) (prescription : BasePrescription)
      (requesting_user_institution : Option String)
  | approveOp (dt : Nat) (prescription_id : String)
  | issueOp (dt : Nat) (prescription_id : String)
      (issuing_user_institution : Option String) (issuing_username : String)
  | modifyOp (dt : Nat) (prescription_id : String)
      (time_statement : Option String) (medication_id : Option String)
  | deleteOp (dt : Nat) (prescription_id : String)
  | completeBloodworkOp (dt : Nat) (request_id : String)

/-- `_get_prescription`: point lookup in the store (404 when absent). -/
def findPrescription (s : WorkflowState) (prescription_id : String) : Option Prescription :=
  s.prescriptions.find? (fun p => p.prescription_id == prescription_id)

/-- An UPDATE keyed on `prescription_id`: replace the matching rows. -/
def updatePrescriptionIn (l : List Prescription) (p : Prescription) : List Prescription :=
  l.map (fun q => if q.prescription_id == p.prescription_id then p else q)

/-- One step of the workflow. A declined or not-found request leaves the store
unchanged; creation inserts only a fresh id (the primary key would reject a
duplicate); modify re-validates then rewrites only `time_statement` and
`medication_id` (the raw submitted statement — `update_prescription` writes
only those two columns); delete removes the row; bloodwork completion stamps
`completed_at` on the request unless already completed
(`routers.bloodwork_requests` declines re-completion as a conflict). -/
def applyOp (ctx : CreateContext) (R : PyRandom) (s : WorkflowState) :
    WorkflowOp → WorkflowState
  | .createOp dt npid nrid username presc reqInst =>
    let now := s.clock + dt
    match create_user_repeat_prescription ctx R 0 npid nrid username presc reqInst with
    | .created p bw =>
      if (findPrescription s npid).isSome then { s with clock := now }
      else { s with
              prescriptions := s.prescriptions ++ [p]
              blood_requests := s.blood_requests ++ bw.toList
              clock := now }
    | _ => { s with clock := now }
  | .approveOp dt pid =>
    let now := s.clock + dt
    match findPrescription s pid with
    | none => { s with clock := now }
    | some p =>
      match mark_prescription_as_approved now s.blood_requests p with
      | .approved p2 =>
        { s with prescriptions := updatePrescriptionIn s.prescriptions p2, clock := now }
      | _ => { s with clock := now }
  | .issueOp dt pid inst uname =>
    let now := s.clock + dt
    match findPrescription s pid with
    | none => { s with clock := now }
    | some p =>
      match mark_prescription_as_issued now p inst uname with
      | .issued p2 =>
        { s with prescriptions := updatePrescriptionIn s.prescriptions p2, clock := now }
      | _ => { s with clock := now }
  | .modifyOp dt pid ts mid =>
    let now := s.clock + dt
    match findPrescription s pid with
    | none => { s with clock := now }
    | some p =>
      let medOk := match mid with
        | some m => (get_medication_by_id ctx.medications m).isSome
        | none => true
      let tsOk := match ts with
        | some t => (ctx.parse_time_recurrence t).isSome
        | none => true
      if medOk && tsOk then
        let p2 := { p with
          time_statement := ts.getD p.time_statement
          medication_id := mid.getD p.medication_id }
        { s with prescriptions := updatePrescriptionIn s.prescriptions p2, clock := now }
      else { s with clock := now }
  | .deleteOp dt pid =>
    { s with
        prescriptions := s.prescriptions.filter (fun p => p.prescription_id != pid)
        clock := s.clock + dt }
  | .completeBloodworkOp dt rid =>
    let now := s.clock + dt
    { s with
        blood_requests := s.blood_requests.map (fun r =>
          if r.request_id == rid && r.completed_at.isNone then
            { r with completed_at := some now }
          else r)
        clock := now }

/-- The empty store at time zero. -/
def initialWorkflowState : WorkflowState := { prescriptions := [], blood_requests := [], clock := 0 }

/-- Run a sequence of workflow operations from the empty store. -/
def runWorkflow (ctx : CreateContext) (R : PyRandom) (ops : List WorkflowOp) : WorkflowState :=
  ops.foldl (applyOp ctx R) initialWorkflowState

/-- The per-prescription invariant claimed by the spec: the issue fields are
set together, and an issued prescription was approved no later than issued. -/
def prescriptionInvariant (p : Prescription) : Prop :=
  (p.issued_at.isSome ↔ p.issued_by.isSome)
  ∧ ∀ t, p.issued_at = some t → ∃ ta, p.approved_at = some ta ∧ ta ≤ t

/-- Strengthened inductive invariant on one prescription: the spec invariant
plus a bound of every timestamp by the clock. -/
def invariantAt (clock : Nat) (p : Prescription) : Prop :=
  (p.issued_at.isSome ↔ p.issued_by.isSome)
  ∧ (∀ t, p.issued_at = some t → ∃ ta, p.approved_at = some ta ∧ ta ≤ t)
  ∧ (∀ t, p.issued_at = some t → t ≤ clock)
  ∧ (∀ t, p.approved_at = some t → t ≤ clock)

/-- Strengthened inductive invariant on the whole store. -/
def stateInvariant (s : WorkflowState) : Prop :=
  ∀ p ∈ s.prescriptions, invariantAt s.clock p

/-! ## Concrete instances used to exercise the operations -/

/-- A small concrete reference store: patient `alice` of practice `mp1` with
pharmacy assignment `ph1`, and one medication `m1` requiring bloodwork. -/
def exampleCtx : CreateContext :=
  { users := [{ username := "alice", password := "h", email := "e", name := "n",
                institution_id := some "mp1" }]
    medical_practices := ["mp1"]
    pharmacy_assignments := [("alice", "ph1")]
    medications := [{ medication_id := "m1", medication_name := "med",
                      bloodwork_requirement := some 2 }]
    parse_time_recurrence := fun s => some s }

/-- A concrete pseudo-random generator instance. -/
def exampleRandom : PyRandom :=
  { seed := fun n => n, randint := fun st lo _ => (lo + st, st) }

/-- A concrete full lifecycle: create with bloodwork, complete the bloodwork,
approve, issue from the filling pharmacy. -/
def exampleOps : List WorkflowOp :=
  [ .createOp 0 "p1" "r1" "alice" { medication_id := "m1", time_statement := "R/P1D" } (some "mp1")
  , .completeBloodworkOp 1 "r1"
  , .approveOp 1 "p1"
  , .issueOp 1 "p1" (some "ph1") "bob" ]

/-- The prescription row produced by `exampleOps`. -/
def examplePrescription : Prescription :=
  { prescription_id := "p1", medication_id := "m1", time_statement := "R/P1D",
    institution_id := "ph1", created_by_institution_id := some "mp1",
    username := "alice", approved_at := some 2, issued_at := some 3,
    issued_by := some "bob", short_code := 1 }

/-! ## Role and user association replacement (src/app/routers/roles.py, users.py) -/

/-- Outcome of a replace-associations endpoint: 400 validation decline or
204 success. -/
inductive ReplaceOutcome where
  | declined
  | ok
deriving DecidableEq, Repr

/-- `roles._check_permissions_exists` and `users._check_roles_exist`:
`any(x for x in supplied if str(x) not in valid)`. The elements are `UUID`
objects, which are always truthy, so this is exactly an existence test. -/
def check_ids_exist (valid : List String) (supplied : List String) : Bool :=
  supplied.any (fun x => !(valid.contains x))

/-- `roles.add_permissions_to_role` acting on the `permissions_by_role` edge
table (rows are (role_id, permission_id)): the validation dependency raises
before any mutation; on success all edges of the role are deleted and the
supplied ids inserted. -/
def add_permissions_to_role (valid_permissions : List String)
    (edges : List (String × String)) (role_id : String)
    (permissions : List String) : ReplaceOutcome × List (String × String) :=
  if check_ids_exist valid_permissions permissions then (.declined, edges)
  else
    (.ok, edges.filter (fun e => e.1 != role_id)
            ++ permissions.map (fun permission => (role_id, permission)))

/-- `users.assign_roles` acting on the `role_by_user` edge table (rows are
(username, role_id)): same validate-then-replace-all contract. -/
def assign_roles (valid_roles : List String)
    (edges : List (String × String)) (username : String)
    (roles : List String) : ReplaceOutcome × List (String × String) :=
  if check_ids_exist valid_roles roles then (.declined, edges)
  else
    (.ok, edges.filter (fun e => e.1 != username)
            ++ roles.map (fun role => (username, role)))

/-! ## Institution creation (src/app/routers/pharmacies.py, medical_practices.py) -/

/-- Row of `institutions`: id, type (1 = medical practice, 2 = pharmacy), name. -/
structure InstitutionRow where
  institution_id : String
  institution_type : Nat
  name : String
deriving DecidableEq, Repr

/-- The store touched by institution creation: institutions (unique name) and
pending users (unique username). -/
structure RegistryState where
  institutions : List InstitutionRow
  pending_users : List (String × String)
deriving DecidableEq, Repr

/-- `user_queries.create_pending_user`: INSERT that raises `UniqueViolation`
(modelled as `none`) when the username is already pending. -/
def create_pending_user (s : RegistryState) (username : String)
    (institution_id : String) : Option RegistryState :=
  if s.pending_users.any (fun u => u.1 == username) then none
  else some { s with pending_users := s.pending_users ++ [(username, institution_id)] }

/-- Outcome of a create-institution endpoint: 400 duplicate-name conflict,
400 duplicate-master-user conflict, or 201 with the new id. -/
inductive InstitutionCreateOutcome where
  | institutionConflict
  | userConflict
  | ok (institution_id : String)
deriving DecidableEq, Repr

/-- `pharmacies.create_new_pharmacy`: insert the institution (unique-name
conflict declines untouched); if the master user then conflicts, run the
compensating `delete_pharmacy` (DELETE by id and pharmacy type) before
surfacing `User already exists`. -/
def create_new_pharmacy (s : RegistryState) (new_institution_id : String)
    (pharmacy_name : String) (master_username : String) :
    InstitutionCreateOutcome × RegistryState :=
  if s.institutions.any (fun i => i.name == pharmacy_name) then
    (.institutionConflict, s)
  else
    let s1 := { s with institutions :=
      s.institutions ++ [{ institution_id := new_institution_id, institution_type := 2, name := pharmacy_name }] }
    match create_pending_user s1 master_username new_institution_id with
    | some s2 => (.ok new_institution_id, s2)
    | none =>
      (.userConflict,
        { s1 with institutions := s1.institutions.filter (fun i =>
            !(i.institution_id == new_institution_id && i.institution_type == 2)) })

/-- `medical_practices.create_new_medical_practice`: insert the institution;
the master user is created through `common_functions._handle_create_pending_user`,
which surfaces `User already exists` without any compensating delete. -/
def create_new_medical_practice (s : RegistryState) (new_institution_id : String)
    (practice_name : String) (master_username : String) :
    InstitutionCreateOutcome × RegistryState :=
  if s.institutions.any (fun i => i.name == practice_name) then
    (.institutionConflict, s)
  else
    let s1 := { s with institutions :=
      s.institutions ++ [{ institution_id := new_institution_id, institution_type := 1, name := practice_name }] }
    match create_pending_user s1 master_username new_institution_id with
    | some s2 => (.ok new_institution_id, s2)
    | none => (.userConflict, s1)

/-! ## Helper lemmas -/

/-- The truthiness-filtered `any` of `check_user_by_permissions` holds exactly
when some non-empty permission name lies in both lists. -/
theorem hasPermission_any_iff (l perms : List String) :
    ((l.filter (fun p => decide (p ∈ perms))).any pyTruthyString = true)
      ↔ ∃ p ∈ l, p ∈ perms ∧ p ≠ "" := by
  simp only [List.any_eq_true, List.mem_filter, decide_eq_true_eq, pyTruthyString,
    bne_iff_ne, ne_eq]
  constructor
  · rintro ⟨p, ⟨hl, hperm⟩, hne⟩
    exact ⟨p, hl, hperm, hne⟩
  · rintro ⟨p, hl, hperm, hne⟩
    exact ⟨p, ⟨hl, hperm⟩, hne⟩

/-! ## C1 -/

/-- C1 (counterexample): with effective permissions `[""]` and required list
`[""]`, the required list is non-empty, the wildcard is absent, and an
effective permission name does lie in the required list, yet `authorize`
fails as Forbidden: Python string truthiness discards the empty-string match
inside `any(p for p in user_permissions if p in permissions)`. -/
theorem C1_counterexample :
    PermissionsChecker.call ⟨[""]⟩ (fun _ => [""]) "alice" = AuthzResult.forbidden
    ∧ ("" ∈ ([""] : List String)
        ∧ ([""] : List String) ≠ ([] : List String)
        ∧ "*" ∉ ([""] : List String)) := by
  refine ⟨rfl, by simp, by simp, by simp⟩

/-- C1 (amended): authorization succeeds unconditionally on an empty required
list; otherwise it succeeds iff the wildcard is among the effective
permissions or some non-empty effective permission name is in the required
list (an empty-string permission name never matches); in every other case the
outcome is exactly Forbidden. -/
theorem C1_authorize_any_of (checker : PermissionsChecker)
    (gup : String → List String) (user : String) :
    (PermissionsChecker.call checker gup user = AuthzResult.ok user
      ↔ (checker.permissions = []
          ∨ "*" ∈ gup user
          ∨ ∃ p ∈ gup user, p ∈ checker.permissions ∧ p ≠ ""))
    ∧ (PermissionsChecker.call checker gup user = AuthzResult.ok user
        ∨ PermissionsChecker.call checker gup user = AuthzResult.forbidden) := by
  have hany := hasPermission_any_iff (gup user) checker.permissions
  unfold PermissionsChecker.call check_user_by_permissions
  by_cases hlen : checker.permissions.length < 1
  · have hnil : checker.permissions = [] := by
      cases h : checker.permissions with
      | nil => rfl
      | cons a l => rw [h] at hlen; simp at hlen
    simp [hlen, hnil]
  · have hne : ¬ checker.permissions = [] := by
      intro h
      exact hlen (by simp [h])
    by_cases hw : ("*" : String) ∈ gup user
    · simp [hlen, hw]
    · by_cases hp : ((gup user).filter (fun p => decide (p ∈ checker.permissions))).any pyTruthyString = true
      · simp [hlen, hw, hp, hne, hany.mp hp]
      · have hnex : ¬ ∃ p ∈ gup user, p ∈ checker.permissions ∧ p ≠ "" :=
          fun hc => hp (hany.mpr hc)
        simp [hlen, hw, hp, hne, hnex]

/-- C1 witness: a user holding the single required permission is authorized. -/
theorem C1_authorize_any_of_witness :
    PermissionsChecker.call ⟨["prescription.approve"]⟩
      (fun _ => ["prescription.approve"]) "alice" = AuthzResult.ok "alice" :=
  (C1_authorize_any_of ⟨["prescription.approve"]⟩
      (fun _ => ["prescription.approve"]) "alice").1.mpr
    (Or.inr (Or.inr ⟨"prescription.approve", by simp⟩))

/-! ## C6 -/

/-- C6: a token that decodes to subject `ghost` while no such user row exists
makes `get_current_user` end in the uncaught-`TypeError` outcome (surfaced as
a 500 response), which is distinguishable from the single `unauthenticated`
outcome that the missing-token, undecodable-token and missing-claim failures
all yield — contradicting the specified collapse to one Unauthenticated
outcome. -/
theorem C6_missing_subject_distinguishable :
    get_current_user (fun _ => some (some "ghost")) [] (some "token") = AuthOutcome.typeError
    ∧ AuthOutcome.typeError ≠ AuthOutcome.unauthenticated
    ∧ get_current_user (fun _ => some (some "ghost")) [] none = AuthOutcome.unauthenticated
    ∧ get_current_user (fun _ => none) [] (some "token") = AuthOutcome.unauthenticated
    ∧ get_current_user (fun _ => some none) [] (some "token") = AuthOutcome.unauthenticated := by
  refine ⟨rfl, by simp, rfl, rfl, rfl⟩

/-! ## C9 -/

/-- C9: `create_prescription` reseeds the generator with the constant 1
before drawing, so its short code is the fixed value drawn from the freshly
seeded state, and any two creation calls produce identical short codes
whatever the prior generator states and prescription inputs. -/
theorem C9_short_code_deterministic (R : PyRandom)
    (rng1 rng2 : Nat) (u1 u2 : String) (pr1 pr2 : BasePrescription)
    (i1 i2 : String) (n1 n2 : String) (c1 c2 : Option String) :
    (create_prescription R rng1 u1 pr1 i1 n1 c1).short_code
        = (R.randint (R.seed 1) 0 99999999).1
    ∧ (create_prescription R rng1 u1 pr1 i1 n1 c1).short_code
        = (create_prescription R rng2 u2 pr2 i2 n2 c2).short_code :=
  ⟨rfl, rfl⟩

/-! ## C10 -/

/-- C10: login yields the single `unauthorized` outcome both when the
username is unknown and when the password fails to verify (an unrecognized
stored hash verifies to false), and yields a token exactly when the user
exists and the password verifies against the stored hash. -/
theorem C10_login_uniform_failure (pwdVerify : String → String → Option Bool)
    (create_token : String → String) (users : List UserRow)
    (username password : String) :
    (get_user_by_username users username = none →
      login pwdVerify create_token users username password = LoginResult.unauthorized)
    ∧ (∀ u, get_user_by_username users username = some u →
        verify_password pwdVerify password u.password = false →
        login pwdVerify create_token users username password = LoginResult.unauthorized)
    ∧ (∀ u, get_user_by_username users username = some u →
        verify_password pwdVerify password u.password = true →
        login pwdVerify create_token users username password
          = LoginResult.token (create_token u.username))
    ∧ (∀ plain hashed, pwdVerify plain hashed = none →
        verify_password pwdVerify plain hashed = false)
    ∧ (∀ t, login pwdVerify create_token users username password = LoginResult.token t →
        ∃ u, get_user_by_username users username = some u
          ∧ verify_password pwdVerify password u.password = true
          ∧ t = create_token u.username) := by
  refine ⟨?_, ?_, ?_, ?_, ?_⟩
  · intro h
    simp [login, authenticate_user, h]
  · intro u hu hv
    simp [login, authenticate_user, hu, hv]
  · intro u hu hv
    simp [login, authenticate_user, hu, hv]
  · intro plain hashed h
    simp [verify_password, h]
  · intro t ht
    unfold login authenticate_user at ht
    rcases hfind : get_user_by_username users username with _ | u
    · rw [hfind] at ht
      simp at ht
    · rw [hfind] at ht
      by_cases hv : verify_password pwdVerify password u.password = true
      · simp only [hv, if_true] at ht
        simp only [LoginResult.token.injEq] at ht
        exact ⟨u, rfl, hv, ht.symm⟩
      · simp only [hv, if_false, Bool.false_eq_true, reduceIte] at ht
        simp at ht

/-- C10 witness: a stored user with a verifying password receives a token. -/
theorem C10_login_uniform_failure_witness :
    login (fun _ _ => some true) (fun u => String.append u "-token")
      [{ username := "alice", password := "h", email := "e", name := "n", institution_id := none }]
      "alice" "pw"
      = LoginResult.token (String.append "alice" "-token") :=
  (C10_login_uniform_failure (fun _ _ => some true) (fun u => String.append u "-token")
    [{ username := "alice", password := "h", email := "e", name := "n", institution_id := none }]
    "alice" "pw").2.2.1
    { username := "alice", password := "h", email := "e", name := "n", institution_id := none }
    rfl rfl

/-! ## C2 -/

/-- C2: approve declines `already approved` when `approved_at` is already
set; otherwise — given that at most one bloodwork row is associated with the
prescription, as the one-to-one schema provides — it declines `bloodwork
incomplete` exactly when an associated request with null `completed_at`
exists; in every other case (including when no request exists at all) it
stamps `approved_at = now` and leaves all other fields unchanged. -/
theorem C2_approve_characterization (now : Nat) (requests : List BloodworkRequest)
    (p : Prescription)
    (huniq : ∀ q1 ∈ requests, ∀ q2 ∈ requests,
      q1.prescription_id = p.prescription_id → q2.prescription_id = p.prescription_id →
      q1 = q2) :
    (p.approved_at.isSome →
      mark_prescription_as_approved now requests p = ApproveResult.alreadyApproved)
    ∧ (p.approved_at = none →
        (∃ q ∈ requests, q.prescription_id = p.prescription_id ∧ q.completed_at = none) →
        mark_prescription_as_approved now requests p = ApproveResult.bloodworkIncomplete)
    ∧ (p.approved_at = none →
        ¬ (∃ q ∈ requests, q.prescription_id = p.prescription_id ∧ q.completed_at = none) →
        mark_prescription_as_approved now requests p
          = ApproveResult.approved { p with approved_at := some now }) := by
  refine ⟨?_, ?_, ?_⟩
  · intro happr
    simp [mark_prescription_as_approved, happr]
  · intro happr hex
    obtain ⟨q, hq, hqp, hqc⟩ := hex
    have hfind : ∃ r, requests.find? (fun r => r.prescription_id == p.prescription_id) = some r := by
      cases h : requests.find? (fun r => r.prescription_id == p.prescription_id) with
      | some r => exact ⟨r, rfl⟩
      | none =>
        have hq2 := List.find?_eq_none.mp h q hq
        simp [hqp] at hq2
    obtain ⟨r, hr⟩ := hfind
    have hrmem : r ∈ requests := List.mem_of_find?_eq_some hr
    have hrp : r.prescription_id = p.prescription_id := by
      have := List.find?_some hr
      simpa using this
    have hrq : r = q := huniq r hrmem q hq hrp hqp
    simp [mark_prescription_as_approved, get_bloodwork_request_for_prescription, happr,
      hr, hrq, hqc]
  · intro happr hnex
    cases hfind : requests.find? (fun r => r.prescription_id == p.prescription_id) with
    | none =>
      simp [mark_prescription_as_approved, get_bloodwork_request_for_prescription, happr,
        hfind, mark_prescription_approved]
    | some r =>
      have hrmem : r ∈ requests := List.mem_of_find?_eq_some hfind
      have hrp : r.prescription_id = p.prescription_id := by
        have := List.find?_some hfind
        simpa using this
      cases hc : r.completed_at with
      | none => exact absurd ⟨r, hrmem, hrp, hc⟩ hnex
      | some t =>
        simp [mark_prescription_as_approved, get_bloodwork_request_for_prescription, happr,
          hfind, hc, mark_prescription_approved]

/-- C2 witness: with no bloodwork request at all, an unapproved prescription
is approved and only `approved_at` changes. -/
theorem C2_approve_characterization_witness :
    mark_prescription_as_approved 5 []
      { prescription_id := "p1", medication_id := "m1", time_statement := "R/P1D",
        institution_id := "ph1", created_by_institution_id := some "mp1",
        username := "alice", approved_at := none, issued_at := none,
        issued_by := none, short_code := 7 }
      = ApproveResult.approved
      { prescription_id := "p1", medication_id := "m1", time_statement := "R/P1D",
        institution_id := "ph1", created_by_institution_id := some "mp1",
        username := "alice", approved_at := some 5, issued_at := none,
        issued_by := none, short_code := 7 } :=
  (C2_approve_characterization 5 []
    { prescription_id := "p1", medication_id := "m1", time_statement := "R/P1D",
      institution_id := "ph1", created_by_institution_id := some "mp1",
      username := "alice", approved_at := none, issued_at := none,
      issued_by := none, short_code := 7 }
    (by simp)).2.2 rfl (by simp)

/-! ## C3 -/

/-- C3: issue checks, in order: the issuing identity's institution equals the
prescription's filling institution (else the distinct 403 `Wrong
institution.`), the prescription is not already issued (else `Prescription
already issued.`), the prescription is approved (else `Prescription not
approved for issue.`); when all three hold it stamps `issued_at = now` and
`issued_by` = the issuing identity. -/
theorem C3_issue_characterization (now : Nat) (p : Prescription)
    (inst : Option String) (uname : String) :
    (inst ≠ some p.institution_id →
      mark_prescription_as_issued now p inst uname = IssueResult.wrongInstitution)
    ∧ (inst = some p.institution_id →
        (p.issued_at.isSome ∨ p.issued_by.isSome) →
        mark_prescription_as_issued now p inst uname = IssueResult.alreadyIssued)
    ∧ (inst = some p.institution_id →
        p.issued_at = none → p.issued_by = none → p.approved_at = none →
        mark_prescription_as_issued now p inst uname = IssueResult.notApproved)
    ∧ (inst = some p.institution_id →
        p.issued_at = none → p.issued_by = none → ∀ ta, p.approved_at = some ta →
        mark_prescription_as_issued now p inst uname
          = IssueResult.issued { p with issued_at := some now, issued_by := some uname }) := by
  refine ⟨?_, ?_, ?_, ?_⟩
  · intro h
    simp [mark_prescription_as_issued, h]
  · intro h hiss
    rcases hiss with h1 | h1 <;> simp [mark_prescription_as_issued, h, h1]
  · intro h h1 h2 h3
    simp [mark_prescription_as_issued, h, h1, h2, h3]
  · intro h h1 h2 ta h3
    simp [mark_prescription_as_issued, mark_prescription_issued, h, h1, h2, h3]

/-- C3 witness: an approved, unissued prescription issued from its own filling
pharmacy records both issue fields. -/
theorem C3_issue_characterization_witness :
    mark_prescription_as_issued 9
      { prescription_id := "p1", medication_id := "m1", time_statement := "R/P1D",
        institution_id := "ph1", created_by_institution_id := some "mp1",
        username := "alice", approved_at := some 4, issued_at := none,
        issued_by := none, short_code := 7 }
      (some "ph1") "bob"
      = IssueResult.issued
      { prescription_id := "p1", medication_id := "m1", time_statement := "R/P1D",
        institution_id := "ph1", created_by_institution_id := some "mp1",
        username := "alice", approved_at := some 4, issued_at := some 9,
        issued_by := some "bob", short_code := 7 } :=
  (C3_issue_characterization 9
    { prescription_id := "p1", medication_id := "m1", time_statement := "R/P1D",
      institution_id := "ph1", created_by_institution_id := some "mp1",
      username := "alice", approved_at := some 4, issued_at := none,
      issued_by := none, short_code := 7 }
    (some "ph1") "bob").2.2.2 rfl rfl rfl 4 rfl

/-! ## C7 -/

/-- The existence test of the validation dependencies, as a proposition. -/
theorem check_ids_exist_iff (valid xs : List String) :
    check_ids_exist valid xs = true ↔ ∃ x ∈ xs, x ∉ valid := by
  simp [check_ids_exist, List.any_eq_true]

/-- After a replace-all, the edges keyed on the target are exactly the
inserted ones. -/
theorem replaceEdges_filter_eq (k : String) (xs : List String)
    (edges : List (String × String)) :
    ((edges.filter (fun e => e.1 != k)) ++ xs.map (fun x => (k, x))).filter
        (fun e => e.1 == k)
      = xs.map (fun x => (k, x)) := by
  rw [List.filter_append]
  have h1 : (edges.filter (fun e => e.1 != k)).filter (fun e => e.1 == k) = [] := by
    rw [List.filter_filter]
    apply List.filter_eq_nil_iff.mpr
    intro e _
    simp only [Bool.and_eq_true, bne_iff_ne, ne_eq, beq_iff_eq]
    tauto
  have h2 : (xs.map (fun x => (k, x))).filter (fun e => e.1 == k) = xs.map (fun x => (k, x)) := by
    apply List.filter_eq_self.mpr
    intro e he
    obtain ⟨x, _, hx⟩ := List.mem_map.mp he
    simp [← hx]
  rw [h1, h2, List.nil_append]

/-- After a replace-all, the edges keyed on any other target are untouched. -/
theorem replaceEdges_filter_ne (k : String) (xs : List String)
    (edges : List (String × String)) :
    ((edges.filter (fun e => e.1 != k)) ++ xs.map (fun x => (k, x))).filter
        (fun e => e.1 != k)
      = edges.filter (fun e => e.1 != k) := by
  rw [List.filter_append]
  have h1 : (edges.filter (fun e => e.1 != k)).filter (fun e => e.1 != k)
      = edges.filter (fun e => e.1 != k) := by
    rw [List.filter_filter]
    apply List.filter_congr
    intro e _
    exact Bool.and_self _
  have h2 : (xs.map (fun x => (k, x))).filter (fun e => e.1 != k) = [] := by
    apply List.filter_eq_nil_iff.mpr
    intro e he
    obtain ⟨x, _, hx⟩ := List.mem_map.mp he
    simp [← hx]
  rw [h1, h2, List.append_nil]

/-- C7: replacing a role's permission edges (and symmetrically a user's role
edges) is declined with the edge set completely untouched when any supplied
id is unknown; when every id is valid the operation succeeds, the target's
edges become exactly the supplied ids (so an empty list clears them), and the
edges of every other target are unchanged. -/
theorem C7_replace_all_or_nothing
    (valid_permissions valid_roles : List String)
    (perm_edges role_edges : List (String × String))
    (role_id username : String) (permissions roles : List String) :
    ((∃ x ∈ permissions, x ∉ valid_permissions) →
      add_permissions_to_role valid_permissions perm_edges role_id permissions
        = (ReplaceOutcome.declined, perm_edges))
    ∧ ((∀ x ∈ permissions, x ∈ valid_permissions) →
        (add_permissions_to_role valid_permissions perm_edges role_id permissions).1
            = ReplaceOutcome.ok
          ∧ (add_permissions_to_role valid_permissions perm_edges role_id permissions).2.filter
              (fun e => e.1 == role_id) = permissions.map (fun x => (role_id, x))
          ∧ (add_permissions_to_role valid_permissions perm_edges role_id permissions).2.filter
              (fun e => e.1 != role_id) = perm_edges.filter (fun e => e.1 != role_id))
    ∧ ((∃ x ∈ roles, x ∉ valid_roles) →
        assign_roles valid_roles role_edges username roles
          = (ReplaceOutcome.declined, role_edges))
    ∧ ((∀ x ∈ roles, x ∈ valid_roles) →
        (assign_roles valid_roles role_edges username roles).1 = ReplaceOutcome.ok
          ∧ (assign_roles valid_roles role_edges username roles).2.filter
              (fun e => e.1 == username) = roles.map (fun x => (username, x))
          ∧ (assign_roles valid_roles role_edges username roles).2.filter
              (fun e => e.1 != username) = role_edges.filter (fun e => e.1 != username)) := by
  refine ⟨?_, ?_, ?_, ?_⟩
  · intro hex
    have hb : check_ids_exist valid_permissions permissions = true :=
      (check_ids_exist_iff valid_permissions permissions).mpr hex
    simp [add_permissions_to_role, hb]
  · intro hall
    have hb : check_ids_exist valid_permissions permissions = false := by
      rw [Bool.eq_false_iff]
      intro h
      obtain ⟨x, hx, hnx⟩ := (check_ids_exist_iff valid_permissions permissions).mp h
      exact hnx (hall x hx)
    refine ⟨by simp [add_permissions_to_role, hb], ?_, ?_⟩
    · simp only [add_permissions_to_role, hb, Bool.false_eq_true, if_false]
      exact replaceEdges_filter_eq role_id permissions perm_edges
    · simp only [add_permissions_to_role, hb, Bool.false_eq_true, if_false]
      exact replaceEdges_filter_ne role_id permissions perm_edges
  · intro hex
    have hb : check_ids_exist valid_roles roles = true :=
      (check_ids_exist_iff valid_roles roles).mpr hex
    simp [assign_roles, hb]
  · intro hall
    have hb : check_ids_exist valid_roles roles = false := by
      rw [Bool.eq_false_iff]
      intro h
      obtain ⟨x, hx, hnx⟩ := (check_ids_exist_iff valid_roles roles).mp h
      exact hnx (hall x hx)
    refine ⟨by simp [assign_roles, hb], ?_, ?_⟩
    · simp only [assign_roles, hb, Bool.false_eq_true, if_false]
      exact replaceEdges_filter_eq username roles role_edges
    · simp only [assign_roles, hb, Bool.false_eq_true, if_false]
      exact replaceEdges_filter_ne username roles role_edges

/-- C7 witness: a fully valid singleton replace succeeds, installs exactly the
supplied edge and keeps the other role's edge. -/
theorem C7_replace_all_or_nothing_witness :
    (add_permissions_to_role ["pm1"] [("r0", "pm0")] "r1" ["pm1"]).1 = ReplaceOutcome.ok
    ∧ (add_permissions_to_role ["pm1"] [("r0", "pm0")] "r1" ["pm1"]).2.filter
        (fun e => e.1 == "r1") = (["pm1"]).map (fun x => ("r1", x))
    ∧ (add_permissions_to_role ["pm1"] [("r0", "pm0")] "r1" ["pm1"]).2.filter
        (fun e => e.1 != "r1") = ([("r0", "pm0")]).filter (fun e => e.1 != "r1") :=
  (C7_replace_all_or_nothing ["pm1"] [] [("r0", "pm0")] [] "r1" "u" ["pm1"] []).2.1
    (by simp)

/-! ## C8 -/

/-- C8 (counterexample): with `bob` already pending, creating a medical
practice whose master user is `bob` surfaces the user conflict while the
just-created institution stays in the store — the medical-practice path has
no compensating delete. -/
theorem C8_counterexample :
    create_new_medical_practice
        { institutions := [], pending_users := [("bob", "i0")] } "i1" "Practice" "bob"
      = (InstitutionCreateOutcome.userConflict,
         { institutions := [{ institution_id := "i1", institution_type := 1, name := "Practice" }],
           pending_users := [("bob", "i0")] })
    ∧ (create_new_medical_practice
        { institutions := [], pending_users := [("bob", "i0")] } "i1" "Practice" "bob").2.institutions
        ≠ ([] : List InstitutionRow) := by
  refine ⟨rfl, by decide⟩

/-- C8 (amended): on a master-user uniqueness conflict during a multi-step
institution creation, the pharmacy path deletes the just-created institution
before surfacing the conflict (the caller sees the store exactly as before),
but the medical-practice path surfaces the conflict with the just-created
institution still present. -/
theorem C8_cleanup_pharmacy_only (s : RegistryState) (nid pname musername : String)
    (hfresh : ∀ i ∈ s.institutions, i.institution_id ≠ nid)
    (hname : ∀ i ∈ s.institutions, i.name ≠ pname)
    (hdup : ∃ u ∈ s.pending_users, u.1 = musername) :
    create_new_pharmacy s nid pname musername = (InstitutionCreateOutcome.userConflict, s)
    ∧ create_new_medical_practice s nid pname musername
        = (InstitutionCreateOutcome.userConflict,
           { s with institutions := s.institutions
               ++ [{ institution_id := nid, institution_type := 1, name := pname }] }) := by
  have hnameb : s.institutions.any (fun i => i.name == pname) = false := by
    rw [Bool.eq_false_iff]
    intro h
    obtain ⟨i, hi, he⟩ := List.any_eq_true.mp h
    exact hname i hi (by simpa using he)
  obtain ⟨u, hu, huname⟩ := hdup
  have hdupb : s.pending_users.any (fun v => v.1 == musername) = true :=
    List.any_eq_true.mpr ⟨u, hu, by simp [huname]⟩
  have hfilter : ((s.institutions
      ++ [{ institution_id := nid, institution_type := 2, name := pname }] : List InstitutionRow).filter
      (fun i => !(i.institution_id == nid && i.institution_type == 2))) = s.institutions := by
    rw [List.filter_append]
    have h1 : s.institutions.filter
        (fun i => !(i.institution_id == nid && i.institution_type == 2)) = s.institutions := by
      apply List.filter_eq_self.mpr
      intro i hi
      simp [hfresh i hi]
    have h2 : ([{ institution_id := nid, institution_type := 2, name := pname }] : List InstitutionRow).filter
        (fun i => !(i.institution_id == nid && i.institution_type == 2)) = [] := by
      simp
    rw [h1, h2, List.append_nil]
  constructor
  · simp only [create_new_pharmacy, create_pending_user, hnameb, Bool.false_eq_true, if_false,
      hdupb, if_true, hfilter]
  · simp only [create_new_medical_practice, create_pending_user, hnameb, Bool.false_eq_true,
      if_false, hdupb, if_true]

/-! ## C5 -/

/-- A successful practice lookup pins down the searched id. -/
theorem get_medical_practice_some (mps : List String) (oi : Option String) (i : String)
    (h : get_medical_practice mps oi = some i) : oi = some i ∧ i ∈ mps := by
  cases oi with
  | none => simp [get_medical_practice] at h
  | some j =>
    simp only [get_medical_practice] at h
    by_cases hj : j ∈ mps
    · rw [if_pos hj] at h
      cases h
      exact ⟨rfl, hj⟩
    · rw [if_neg hj] at h
      simp at h

/-- C5: prescription creation evaluates its guards in source order, the first
failure winning with its own distinct declined condition: target user exists;
requesting institution is a medical practice; target user has a pharmacy
assignment; target user's institution is a medical practice; the medication
exists; the recurrence statement parses. On success the prescription carries
no approval or issue field, is filled by the assigned pharmacy, and a
bloodwork request in the incomplete sub-state scoped to the requesting
practice is produced exactly when the medication carries a bloodwork
requirement. -/
theorem C5_create_characterization (ctx : CreateContext) (R : PyRandom) (rng0 : Nat)
    (npid nrid username : String) (presc : BasePrescription) (reqInst : Option String) :
    (get_user_by_username ctx.users username = none →
      create_user_repeat_prescription ctx R rng0 npid nrid username presc reqInst
        = CreateResult.userNotFound)
    ∧ (∀ user, get_user_by_username ctx.users username = some user →
        get_medical_practice ctx.medical_practices reqInst = none →
        create_user_repeat_prescription ctx R rng0 npid nrid username presc reqInst
          = CreateResult.institutionInvalid)
    ∧ (∀ user rp, get_user_by_username ctx.users username = some user →
        get_medical_practice ctx.medical_practices reqInst = some rp →
        get_users_pharmacy_assignment ctx.pharmacy_assignments user.username = none →
        create_user_repeat_prescription ctx R rng0 npid nrid username presc reqInst
          = CreateResult.pharmacyAssignmentNotFound)
    ∧ (∀ user rp pa, get_user_by_username ctx.users username = some user →
        get_medical_practice ctx.medical_practices reqInst = some rp →
        get_users_pharmacy_assignment ctx.pharmacy_assignments user.username = some pa →
        get_medical_practice ctx.medical_practices user.institution_id = none →
        create_user_repeat_prescription ctx R rng0 npid nrid username presc reqInst
          = CreateResult.userNotInMedicalPractice)
    ∧ (∀ user rp pa up, get_user_by_username ctx.users username = some user →
        get_medical_practice ctx.medical_practices reqInst = some rp →
        get_users_pharmacy_assignment ctx.pharmacy_assignments user.username = some pa →
        get_medical_practice ctx.medical_practices user.institution_id = some up →
        get_medication_by_id ctx.medications presc.medication_id = none →
        create_user_repeat_prescription ctx R rng0 npid nrid username presc reqInst
          = CreateResult.medicationInvalid)
    ∧ (∀ user rp pa up med, get_user_by_username ctx.users username = some user →
        get_medical_practice ctx.medical_practices reqInst = some rp →
        get_users_pharmacy_assignment ctx.pharmacy_assignments user.username = some pa →
        get_medical_practice ctx.medical_practices user.institution_id = some up →
        get_medication_by_id ctx.medications presc.medication_id = some med →
        ctx.parse_time_recurrence presc.time_statement = none →
        create_user_repeat_prescription ctx R rng0 npid nrid username presc reqInst
          = CreateResult.timeStatementInvalid)
    ∧ (∀ user rp pa up med ts, get_user_by_username ctx.users username = some user →
        get_medical_practice ctx.medical_practices reqInst = some rp →
        get_users_pharmacy_assignment ctx.pharmacy_assignments user.username = some pa →
        get_medical_practice ctx.medical_practices user.institution_id = some up →
        get_medication_by_id ctx.medications presc.medication_id = some med →
        ctx.parse_time_recurrence presc.time_statement = some ts →
        med.bloodwork_requirement = none →
        create_user_repeat_prescription ctx R rng0 npid nrid username presc reqInst
          = CreateResult.created
            { prescription_id := npid, medication_id := presc.medication_id,
              time_statement := ts, institution_id := pa.2,
              created_by_institution_id := reqInst, username := user.username,
              approved_at := none, issued_at := none, issued_by := none,
              short_code := (R.randint (R.seed 1) 0 99999999).1 } none
          ∧ reqInst = some rp)
    ∧ (∀ user rp pa up med ts requirement,
        get_user_by_username ctx.users username = some user →
        get_medical_practice ctx.medical_practices reqInst = some rp →
        get_users_pharmacy_assignment ctx.pharmacy_assignments user.username = some pa →
        get_medical_practice ctx.medical_practices user.institution_id = some up →
        get_medication_by_id ctx.medications presc.medication_id = some med →
        ctx.parse_time_recurrence presc.time_statement = some ts →
        med.bloodwork_requirement = some requirement →
        create_user_repeat_prescription ctx R rng0 npid nrid username presc reqInst
          = CreateResult.created
            { prescription_id := npid, medication_id := presc.medication_id,
              time_statement := ts, institution_id := pa.2,
              created_by_institution_id := reqInst, username := user.username,
              approved_at := none, issued_at := none, issued_by := none,
              short_code := (R.randint (R.seed 1) 0 99999999).1 }
            (some { request_id := nrid, request_type := requirement,
                    prescription_id := npid, practice_id := rp, completed_at := none })
          ∧ reqInst = some rp) := by
  refine ⟨?_, ?_, ?_, ?_, ?_, ?_, ?_, ?_⟩
  · intro h1
    simp [create_user_repeat_prescription, h1]
  · intro user h1 h2
    simp [create_user_repeat_prescription, h1, h2]
  · intro user rp h1 h2 h3
    simp [create_user_repeat_prescription, h1, h2, h3]
  · intro user rp pa h1 h2 h3 h4
    simp [create_user_repeat_prescription, h1, h2, h3, h4]
  · intro user rp pa up h1 h2 h3 h4 h5
    simp [create_user_repeat_prescription, h1, h2, h3, h4, h5]
  · intro user rp pa up med h1 h2 h3 h4 h5 h6
    simp [create_user_repeat_prescription, h1, h2, h3, h4, h5, h6]
  · intro user rp pa up med ts h1 h2 h3 h4 h5 h6 h7
    refine ⟨?_, (get_medical_practice_some _ _ _ h2).1⟩
    simp [create_user_repeat_prescription, create_prescription, h1, h2, h3, h4, h5, h6, h7]
  · intro user rp pa up med ts requirement h1 h2 h3 h4 h5 h6 h7
    refine ⟨?_, (get_medical_practice_some _ _ _ h2).1⟩
    simp [create_user_repeat_prescription, create_prescription, h1, h2, h3, h4, h5, h6, h7]

/-- C5 witness: a fully valid creation against the concrete reference store
produces the fresh prescription and an incomplete bloodwork request scoped to
the requesting practice. -/
theorem C5_create_characterization_witness :
    (create_user_repeat_prescription exampleCtx exampleRandom 0 "p1" "r1" "alice"
        { medication_id := "m1", time_statement := "R/P1D" } (some "mp1")
      = CreateResult.created
        { prescription_id := "p1", medication_id := "m1", time_statement := "R/P1D",
          institution_id := "ph1", created_by_institution_id := some "mp1",
          username := "alice", approved_at := none, issued_at := none,
          issued_by := none,
          short_code := (exampleRandom.randint (exampleRandom.seed 1) 0 99999999).1 }
        (some { request_id := "r1", request_type := 2, prescription_id := "p1",
                practice_id := "mp1", completed_at := none }))
    ∧ (some "mp1" : Option String) = some "mp1" :=
  (C5_create_characterization exampleCtx exampleRandom 0 "p1" "r1" "alice"
    { medication_id := "m1", time_statement := "R/P1D" } (some "mp1")).2.2.2.2.2.2.2
    { username := "alice", password := "h", email := "e", name := "n",
      institution_id := some "mp1" }
    "mp1" ("alice", "ph1") "mp1"
    { medication_id := "m1", medication_name := "med", bloodwork_requirement := some 2 }
    "R/P1D" 2 rfl rfl rfl rfl rfl rfl rfl

/-! ## C4 -/

/-- Weakening the clock bound of the per-prescription invariant. -/
theorem invariantAt_mono {c c2 : Nat} (hc : c ≤ c2) {p : Prescription}
    (h : invariantAt c p) : invariantAt c2 p := by
  obtain ⟨h1, h2, h3, h4⟩ := h
  exact ⟨h1, h2, fun t ht => le_trans (h3 t ht) hc, fun t ht => le_trans (h4 t ht) hc⟩

/-- Bumping only the clock preserves the store invariant. -/
theorem stateInvariant_clock_le (s : WorkflowState) (c2 : Nat) (hc : s.clock ≤ c2)
    (h : stateInvariant s) : stateInvariant { s with clock := c2 } := by
  intro p hp
  exact invariantAt_mono hc (h p hp)

/-- Membership in the result of an UPDATE keyed on the prescription id. -/
theorem mem_updatePrescriptionIn {l : List Prescription} {p q : Prescription}
    (h : q ∈ updatePrescriptionIn l p) : q = p ∨ q ∈ l := by
  unfold updatePrescriptionIn at h
  obtain ⟨r, hr, he⟩ := List.mem_map.mp h
  by_cases hc : (r.prescription_id == p.prescription_id) = true
  · rw [if_pos hc] at he
    exact Or.inl he.symm
  · rw [if_neg hc] at he
    exact Or.inr (he ▸ hr)

/-- A successful creation yields a prescription with no approval or issue
fields set. -/
theorem create_result_fresh (ctx : CreateContext) (R : PyRandom) (rng0 : Nat)
    (npid nrid username : String) (presc : BasePrescription) (reqInst : Option String)
    (p : Prescription) (bw : Option BloodworkRequest)
    (h : create_user_repeat_prescription ctx R rng0 npid nrid username presc reqInst
          = CreateResult.created p bw) :
    p.approved_at = none ∧ p.issued_at = none ∧ p.issued_by = none := by
  unfold create_user_repeat_prescription at h
  split at h
  · simp at h
  · split at h
    · simp at h
    · split at h
      · simp at h
      · split at h
        · simp at h
        · split at h
          · simp at h
          · split at h
            · simp at h
            · injection h with h1 h2
              subst h1
              exact ⟨rfl, rfl, rfl⟩

/-- A successful approve happens only on an unapproved prescription and
stamps exactly `approved_at = now`. -/
theorem approve_result_eq (now : Nat) (reqs : List BloodworkRequest)
    (p p2 : Prescription)
    (h : mark_prescription_as_approved now reqs p = ApproveResult.approved p2) :
    p.approved_at = none ∧ p2 = { p with approved_at := some now } := by
  unfold mark_prescription_as_approved mark_prescription_approved at h
  split at h
  next hap => simp at h
  next hap =>
    have hnone : p.approved_at = none := Option.not_isSome_iff_eq_none.mp (by simpa using hap)
    by_cases hbw : ((get_bloodwork_request_for_prescription reqs p.prescription_id).1.isSome
        && (get_bloodwork_request_for_prescription reqs p.prescription_id).2.isNone) = true
    · simp only [hbw, if_true] at h
      simp at h
    · simp only [Bool.not_eq_true] at hbw
      simp only [hbw, Bool.false_eq_true, if_false] at h
      injection h with h1
      exact ⟨hnone, h1.symm⟩

/-- A successful issue happens only on an unissued, approved prescription and
stamps exactly the two issue fields. -/
theorem issue_result_eq (now : Nat) (p : Prescription) (inst : Option String)
    (uname : String) (p2 : Prescription)
    (h : mark_prescription_as_issued now p inst uname = IssueResult.issued p2) :
    p.issued_at = none ∧ p.issued_by = none ∧ (∃ ta, p.approved_at = some ta)
    ∧ p2 = { p with issued_at := some now, issued_by := some uname } := by
  unfold mark_prescription_as_issued mark_prescription_issued at h
  split at h
  · simp at h
  next hinst =>
    split at h
    next hiss => simp at h
    next hiss =>
      split at h
      next happ => simp at h
      next happ =>
        have h1 : p.issued_at = none := by
          cases hio : p.issued_at with
          | none => rfl
          | some t => exact absurd (by simp [hio]) hiss
        have h2 : p.issued_by = none := by
          cases hbo : p.issued_by with
          | none => rfl
          | some y => exact absurd (by simp [hbo]) hiss
        have h3 : ∃ ta, p.approved_at = some ta := by
          cases hao : p.approved_at with
          | none => exact absurd (by simp [hao]) happ
          | some ta => exact ⟨ta, rfl⟩
        injection h with h4
        exact ⟨h1, h2, h3, h4.symm⟩

/-- Every workflow operation preserves the strengthened invariant. -/
theorem stateInvariant_applyOp (ctx : CreateContext) (R : PyRandom)
    (s : WorkflowState) (op : WorkflowOp) (h : stateInvariant s) :
    stateInvariant (applyOp ctx R s op) := by
  cases op with
  | createOp dt npid nrid username presc reqInst =>
    simp only [applyOp]
    split
    next p bw hc =>
      split
      next => exact stateInvariant_clock_le s _ (Nat.le_add_right _ _) h
      next =>
        intro q hq
        rcases List.mem_append.mp hq with hq | hq
        · exact invariantAt_mono (Nat.le_add_right _ _) (h q hq)
        · have hqp : q = p := by simpa using hq
          subst hqp
          obtain ⟨h1, h2, h3⟩ := create_result_fresh ctx R 0 npid nrid username presc reqInst q bw hc
          refine ⟨by simp [h2, h3], ?_, ?_, ?_⟩
          · intro t ht
            rw [h2] at ht
            cases ht
          · intro t ht
            rw [h2] at ht
            cases ht
          · intro t ht
            rw [h1] at ht
            cases ht
    next => exact stateInvariant_clock_le s _ (Nat.le_add_right _ _) h
  | approveOp dt pid =>
    simp only [applyOp]
    split
    next => exact stateInvariant_clock_le s _ (Nat.le_add_right _ _) h
    next p0 hfind =>
      split
      next p2 happ =>
        intro q hq
        rcases mem_updatePrescriptionIn hq with hqp | hq
        · subst hqp
          obtain ⟨hap0, hp2⟩ := approve_result_eq _ _ _ _ happ
          obtain ⟨hiff, himp, hbi, hba⟩ := h p0 (List.mem_of_find?_eq_some hfind)
          have hi0 : p0.issued_at = none := by
            cases hio : p0.issued_at with
            | none => rfl
            | some t =>
              obtain ⟨ta, hta, _⟩ := himp t hio
              rw [hap0] at hta
              cases hta
          have hb0 : p0.issued_by = none := by
            cases hbo : p0.issued_by with
            | none => rfl
            | some y =>
              have h5 := hiff.mpr (by simp [hbo])
              rw [hi0] at h5
              simp at h5
          have e1 : q.issued_at = p0.issued_at := by rw [hp2]
          have e2 : q.issued_by = p0.issued_by := by rw [hp2]
          have e3 : q.approved_at = some (s.clock + dt) := by rw [hp2]
          refine ⟨?_, ?_, ?_, ?_⟩
          · rw [e1, e2]
            exact hiff
          · intro t ht
            rw [e1, hi0] at ht
            cases ht
          · intro t ht
            rw [e1, hi0] at ht
            cases ht
          · intro t ht
            rw [e3] at ht
            injection ht with ht
            exact ht ▸ Nat.le_refl _
        · exact invariantAt_mono (Nat.le_add_right _ _) (h q hq)
      next => exact stateInvariant_clock_le s _ (Nat.le_add_right _ _) h
  | issueOp dt pid inst uname =>
    simp only [applyOp]
    split
    next => exact stateInvariant_clock_le s _ (Nat.le_add_right _ _) h
    next p0 hfind =>
      split
      next p2 hiss =>
        intro q hq
        rcases mem_updatePrescriptionIn hq with hqp | hq
        · subst hqp
          obtain ⟨hi0, hb0, ⟨ta, hta⟩, hp2⟩ := issue_result_eq _ _ _ _ _ hiss
          obtain ⟨hiff, himp, hbi, hba⟩ := h p0 (List.mem_of_find?_eq_some hfind)
          have hta2 : ta ≤ s.clock := hba ta hta
          have e1 : q.issued_at = some (s.clock + dt) := by rw [hp2]
          have e2 : q.issued_by = some uname := by rw [hp2]
          have e3 : q.approved_at = p0.approved_at := by rw [hp2]
          refine ⟨?_, ?_, ?_, ?_⟩
          · rw [e1, e2]
            simp
          · intro t ht
            rw [e1] at ht
            injection ht with ht
            subst ht
            exact ⟨ta, by rw [e3]; exact hta, le_trans hta2 (Nat.le_add_right _ _)⟩
          · intro t ht
            rw [e1] at ht
            injection ht with ht
            exact ht ▸ Nat.le_refl _
          · intro t ht
            rw [e3] at ht
            exact le_trans (hba t ht) (Nat.le_add_right _ _)
        · exact invariantAt_mono (Nat.le_add_right _ _) (h q hq)
      next => exact stateInvariant_clock_le s _ (Nat.le_add_right _ _) h
  | modifyOp dt pid ts mid =>
    simp only [applyOp]
    split
    next => exact stateInvariant_clock_le s _ (Nat.le_add_right _ _) h
    next p0 hfind =>
      split
      · intro q hq
        rcases mem_updatePrescriptionIn hq with hqp | hq
        · subst hqp
          obtain ⟨hiff, himp, hbi, hba⟩ := h p0 (List.mem_of_find?_eq_some hfind)
          exact ⟨hiff, himp, fun t ht => le_trans (hbi t ht) (Nat.le_add_right _ _),
            fun t ht => le_trans (hba t ht) (Nat.le_add_right _ _)⟩
        · exact invariantAt_mono (Nat.le_add_right _ _) (h q hq)
      · exact stateInvariant_clock_le s _ (Nat.le_add_right _ _) h
  | deleteOp dt pid =>
    simp only [applyOp]
    intro q hq
    exact invariantAt_mono (Nat.le_add_right _ _) (h q (List.mem_of_mem_filter hq))
  | completeBloodworkOp dt rid =>
    simp only [applyOp]
    intro q hq
    exact invariantAt_mono (Nat.le_add_right _ _) (h q hq)

/-- The strengthened invariant holds in every reachable store. -/
theorem stateInvariant_runWorkflow (ctx : CreateContext) (R : PyRandom)
    (ops : List WorkflowOp) : stateInvariant (runWorkflow ctx R ops) := by
  unfold runWorkflow
  suffices hstep : ∀ (s : WorkflowState), stateInvariant s →
      stateInvariant (ops.foldl (applyOp ctx R) s) by
    refine hstep initialWorkflowState ?_
    intro p hp
    simp [initialWorkflowState] at hp
  induction ops with
  | nil =>
    intro s hs
    exact hs
  | cons op rest ih =>
    intro s hs
    exact ih (applyOp ctx R s op) (stateInvariant_applyOp ctx R s op hs)

/-- C4: in every store reachable by any sequence of create, approve, issue,
modify, delete (and bloodwork-completion) operations from the empty store,
every prescription has `issued_at` and `issued_by` both set or both unset,
and an issued prescription carries an `approved_at` no later than its
`issued_at`. -/
theorem C4_reachable_invariant (ctx : CreateContext) (R : PyRandom)
    (ops : List WorkflowOp) :
    ∀ p ∈ (runWorkflow ctx R ops).prescriptions, prescriptionInvariant p := by
  intro p hp
  obtain ⟨h1, h2, _, _⟩ := stateInvariant_runWorkflow ctx R ops p hp
  exact ⟨h1, h2⟩

/-- C4 witness: the concrete create/complete-bloodwork/approve/issue run ends
with a prescription that is in the store and satisfies the invariant. -/
theorem C4_reachable_invariant_witness :
    examplePrescription ∈ (runWorkflow exampleCtx exampleRandom exampleOps).prescriptions
    ∧ prescriptionInvariant examplePrescription :=
  ⟨by decide,
    C4_reachable_invariant exampleCtx exampleRandom exampleOps examplePrescription (by decide)⟩

/-- C8 witness: with `bob` already pending, the pharmacy path restores the
store exactly, the medical-practice path keeps the created institution. -/
theorem C8_cleanup_pharmacy_only_witness :
    create_new_pharmacy { institutions := [], pending_users := [("bob", "i0")] } "i1" "P" "bob"
      = (InstitutionCreateOutcome.userConflict,
         { institutions := [], pending_users := [("bob", "i0")] })
    ∧ create_new_medical_practice
        { institutions := [], pending_users := [("bob", "i0")] } "i1" "P" "bob"
      = (InstitutionCreateOutcome.userConflict,
         { institutions := [{ institution_id := "i1", institution_type := 1, name := "P" }],
           pending_users := [("bob", "i0")] }) :=
  C8_cleanup_pharmacy_only { institutions := [], pending_users := [("bob", "i0")] } "i1" "P" "bob"
    (by simp) (by simp) ⟨("bob", "i0"), by simp, rfl⟩
